import Mathlib

/-!
# The client API surface of `api.go` (package `client`)

`api.go` is declarative: eight structs (`FraudAPI`, `DASAPI`, `BlobAPI`,
`HeaderAPI`, `StateAPI`, `ShareAPI`, `P2PAPI`, `NodeAPI`) whose fields are
function-typed and carry a `perm:"..."` struct tag, the option struct
`SubmitOptions`, and its constructor `DefaultSubmitOptions`.

The embedding keeps the declarations as data: a Go type is a term of
`GoType`, a struct field is a `Slot` (field name, parameter list, result list,
struct tag), and a struct is a `MethodGroup`.  A parameter group such as
`amount, fee state.Int` is written out as the two parameters it declares.
-/

namespace CelestiaOpenRPC

/-! ## Data model -/

/-- Go type expressions occurring in the signatures of `api.go`. -/
inductive GoType where
  /-- A predeclared type: `bool`, `int`, `uint64`, `string`, `byte`, `error`. -/
  | builtin (name : String)
  /-- A type of an imported package, `pkg.Name`. -/
  | qualified (pkg name : String)
  /-- A type declared in package `client` itself (`Proof`, `SubmitOptions`). -/
  | declared (name : String)
  /-- The pointer type `*T`. -/
  | pointer (elem : GoType)
  /-- The slice type `[]T`. -/
  | slice (elem : GoType)
  /-- The receive-only channel type `<-chan T`. -/
  | recvChan (elem : GoType)
  deriving DecidableEq, Repr

/-- One parameter of a function type; `name` is `none` where the source gives
only the type. -/
structure Param where
  name : Option String
  ty : GoType
  deriving DecidableEq, Repr

/-- A function-typed struct field: its name, parameters, results, and the
key/value pairs of its struct tag (`perm:"read"` is the pair `("perm", "read")`). -/
structure Slot where
  name : String
  params : List Param
  results : List GoType
  tag : List (String × String)
  deriving DecidableEq, Repr

/-- A struct of function-typed fields. -/
structure MethodGroup where
  name : String
  slots : List Slot
  deriving DecidableEq, Repr

/-- A parameter declared with a name. -/
def named (n : String) (t : GoType) : Param := ⟨some n, t⟩

/-- A parameter declared by its type alone. -/
def unnamed (t : GoType) : Param := ⟨none, t⟩

/-- The type `context.Context`. -/
def ctxT : GoType := .qualified "context" "Context"

/-- The predeclared interface type `error`. -/
def errorT : GoType := .builtin "error"

/-- The predeclared type `bool`. -/
def boolT : GoType := .builtin "bool"

/-- The predeclared type `uint64`. -/
def uint64T : GoType := .builtin "uint64"

/-- The predeclared type `string`. -/
def stringT : GoType := .builtin "string"

/-- The type `*header.ExtendedHeader`. -/
def extHeaderP : GoType := .pointer (.qualified "header" "ExtendedHeader")

/-- The type `*state.TxResponse`. -/
def txResponseP : GoType := .pointer (.qualified "state" "TxResponse")

/-- The type `peer.ID`. -/
def peerID : GoType := .qualified "peer" "ID"

/-- The struct tag `perm:"read"`. -/
def permRead : List (String × String) := [("perm", "read")]

/-- The struct tag `perm:"write"`. -/
def permWrite : List (String × String) := [("perm", "write")]

/-- The struct tag `perm:"admin"`. -/
def permAdmin : List (String × String) := [("perm", "admin")]

/-! ## The declarations of `api.go` -/

/-- Struct `FraudAPI` (api.go:30-33). -/
def FraudAPI : MethodGroup :=
  ⟨"FraudAPI",
   [ ⟨"Subscribe", [unnamed ctxT, unnamed (.qualified "fraud" "ProofType")],
        [.recvChan (.pointer (.declared "Proof")), errorT], permRead⟩,
     ⟨"Get", [unnamed ctxT, unnamed (.qualified "fraud" "ProofType")],
        [.slice (.declared "Proof"), errorT], permRead⟩ ]⟩

/-- Struct `DASAPI` (api.go:35-38). -/
def DASAPI : MethodGroup :=
  ⟨"DASAPI",
   [ ⟨"SamplingStats", [named "ctx" ctxT],
        [.qualified "das" "SamplingStats", errorT], permRead⟩,
     ⟨"WaitCatchUp", [named "ctx" ctxT], [errorT], permRead⟩ ]⟩

/-- Struct `BlobAPI` (api.go:40-46). -/
def BlobAPI : MethodGroup :=
  ⟨"BlobAPI",
   [ ⟨"Submit",
        [unnamed ctxT, unnamed (.slice (.pointer (.qualified "blob" "Blob"))),
         unnamed (.pointer (.declared "SubmitOptions"))],
        [uint64T, errorT], permWrite⟩,
     ⟨"Get",
        [unnamed ctxT, unnamed uint64T, unnamed (.qualified "share" "Namespace"),
         unnamed (.qualified "blob" "Commitment")],
        [.pointer (.qualified "blob" "Blob"), errorT], permRead⟩,
     ⟨"GetAll",
        [unnamed ctxT, unnamed uint64T, unnamed (.slice (.qualified "share" "Namespace"))],
        [.slice (.pointer (.qualified "blob" "Blob")), errorT], permRead⟩,
     ⟨"GetProof",
        [unnamed ctxT, unnamed uint64T, unnamed (.qualified "share" "Namespace"),
         unnamed (.qualified "blob" "Commitment")],
        [.pointer (.qualified "blob" "Proof"), errorT], permRead⟩,
     ⟨"Included",
        [unnamed ctxT, unnamed uint64T, unnamed (.qualified "share" "Namespace"),
         unnamed (.pointer (.qualified "blob" "Proof")),
         unnamed (.qualified "blob" "Commitment")],
        [boolT, errorT], permRead⟩ ]⟩

/-- Struct `HeaderAPI` (api.go:48-64). -/
def HeaderAPI : MethodGroup :=
  ⟨"HeaderAPI",
   [ ⟨"LocalHead", [unnamed ctxT], [extHeaderP, errorT], permRead⟩,
     ⟨"GetByHash", [named "ctx" ctxT, named "hash" (.qualified "libhead" "Hash")],
        [extHeaderP, errorT], permRead⟩,
     ⟨"GetVerifiedRangeByHeight", [unnamed ctxT, unnamed extHeaderP, unnamed uint64T],
        [.slice extHeaderP, errorT], permRead⟩,
     ⟨"GetByHeight", [unnamed ctxT, unnamed uint64T], [extHeaderP, errorT], permRead⟩,
     ⟨"SyncState", [named "ctx" ctxT], [.qualified "sync" "State", errorT], permRead⟩,
     ⟨"SyncWait", [named "ctx" ctxT], [errorT], permRead⟩,
     ⟨"NetworkHead", [named "ctx" ctxT], [extHeaderP, errorT], permRead⟩,
     ⟨"Subscribe", [named "ctx" ctxT], [.recvChan extHeaderP, errorT], permRead⟩ ]⟩

/-- Struct `StateAPI` (api.go:65-127). -/
def StateAPI : MethodGroup :=
  ⟨"StateAPI",
   [ ⟨"AccountAddress", [named "ctx" ctxT],
        [.qualified "state" "Address", errorT], permRead⟩,
     ⟨"IsStopped", [named "ctx" ctxT], [boolT], permRead⟩,
     ⟨"Balance", [named "ctx" ctxT],
        [.pointer (.qualified "state" "Balance"), errorT], permRead⟩,
     ⟨"BalanceForAddress", [named "ctx" ctxT, named "addr" (.qualified "state" "Address")],
        [.pointer (.qualified "state" "Balance"), errorT], permRead⟩,
     ⟨"Transfer",
        [named "ctx" ctxT, named "to" (.qualified "state" "AccAddress"),
         named "amount" (.qualified "state" "Int"), named "fee" (.qualified "state" "Int"),
         named "gasLimit" uint64T],
        [txResponseP, errorT], permWrite⟩,
     ⟨"SubmitTx", [named "ctx" ctxT, named "tx" (.qualified "state" "Tx")],
        [txResponseP, errorT], permWrite⟩,
     ⟨"SubmitPayForBlob",
        [named "ctx" ctxT, named "fee" (.qualified "state" "Int"), named "gasLim" uint64T,
         named "blobs" (.slice (.pointer (.qualified "blob" "Blob")))],
        [txResponseP, errorT], permWrite⟩,
     ⟨"CancelUnbondingDelegation",
        [named "ctx" ctxT, named "valAddr" (.qualified "state" "ValAddress"),
         named "amount" (.qualified "state" "Int"), named "height" (.qualified "state" "Int"),
         named "fee" (.qualified "state" "Int"), named "gasLim" uint64T],
        [txResponseP, errorT], permWrite⟩,
     ⟨"BeginRedelegate",
        [named "ctx" ctxT, named "srcValAddr" (.qualified "state" "ValAddress"),
         named "dstValAddr" (.qualified "state" "ValAddress"),
         named "amount" (.qualified "state" "Int"), named "fee" (.qualified "state" "Int"),
         named "gasLim" uint64T],
        [txResponseP, errorT], permWrite⟩,
     ⟨"Undelegate",
        [named "ctx" ctxT, named "delAddr" (.qualified "state" "ValAddress"),
         named "amount" (.qualified "state" "Int"), named "fee" (.qualified "state" "Int"),
         named "gasLim" uint64T],
        [txResponseP, errorT], permWrite⟩,
     ⟨"Delegate",
        [named "ctx" ctxT, named "delAddr" (.qualified "state" "ValAddress"),
         named "amount" (.qualified "state" "Int"), named "fee" (.qualified "state" "Int"),
         named "gasLim" uint64T],
        [txResponseP, errorT], permWrite⟩,
     ⟨"QueryDelegation", [named "ctx" ctxT, named "valAddr" (.qualified "state" "ValAddress")],
        [.pointer (.qualified "state" "QueryDelegationResponse"), errorT], permRead⟩,
     ⟨"QueryUnbonding", [named "ctx" ctxT, named "valAddr" (.qualified "state" "ValAddress")],
        [.pointer (.qualified "state" "QueryUnbondingDelegationResponse"), errorT], permRead⟩,
     ⟨"QueryRedelegations",
        [named "ctx" ctxT, named "srcValAddr" (.qualified "state" "ValAddress"),
         named "dstValAddr" (.qualified "state" "ValAddress")],
        [.pointer (.qualified "state" "QueryRedelegationsResponse"), errorT], permRead⟩ ]⟩

/-- Struct `ShareAPI` (api.go:128-144). -/
def ShareAPI : MethodGroup :=
  ⟨"ShareAPI",
   [ ⟨"SharesAvailable", [unnamed ctxT, unnamed extHeaderP], [errorT], permRead⟩,
     ⟨"GetShare",
        [named "ctx" ctxT, named "eh" extHeaderP, named "row" (.builtin "int"),
         named "col" (.builtin "int")],
        [.qualified "share" "Share", errorT], permRead⟩,
     ⟨"GetEDS", [named "ctx" ctxT, named "eh" extHeaderP],
        [.pointer (.qualified "rsmt2d" "ExtendedDataSquare"), errorT], permRead⟩,
     ⟨"GetSharesByNamespace",
        [named "ctx" ctxT, named "eh" extHeaderP,
         named "namespace" (.qualified "share" "Namespace")],
        [.qualified "share" "NamespacedShares", errorT], permRead⟩ ]⟩

/-- Struct `P2PAPI` (api.go:145-163). -/
def P2PAPI : MethodGroup :=
  ⟨"P2PAPI",
   [ ⟨"Peers", [unnamed ctxT], [.slice peerID, errorT], permAdmin⟩,
     ⟨"PeerInfo", [named "ctx" ctxT, named "id" peerID],
        [.qualified "peer" "AddrInfo", errorT], permAdmin⟩,
     ⟨"Connect", [named "ctx" ctxT, named "pi" (.qualified "peer" "AddrInfo")],
        [errorT], permAdmin⟩,
     ⟨"ClosePeer", [named "ctx" ctxT, named "id" peerID], [errorT], permAdmin⟩,
     ⟨"Connectedness", [named "ctx" ctxT, named "id" peerID],
        [.qualified "network" "Connectedness", errorT], permAdmin⟩,
     ⟨"NATStatus", [unnamed ctxT], [.qualified "network" "Reachability", errorT], permAdmin⟩,
     ⟨"BlockPeer", [named "ctx" ctxT, named "p" peerID], [errorT], permAdmin⟩,
     ⟨"UnblockPeer", [named "ctx" ctxT, named "p" peerID], [errorT], permAdmin⟩,
     ⟨"ListBlockedPeers", [unnamed ctxT], [.slice peerID, errorT], permAdmin⟩,
     ⟨"Protect", [named "ctx" ctxT, named "id" peerID, named "tag" stringT],
        [errorT], permAdmin⟩,
     ⟨"Unprotect", [named "ctx" ctxT, named "id" peerID, named "tag" stringT],
        [boolT, errorT], permAdmin⟩,
     ⟨"IsProtected", [named "ctx" ctxT, named "id" peerID, named "tag" stringT],
        [boolT, errorT], permAdmin⟩,
     ⟨"BandwidthStats", [unnamed ctxT], [.qualified "metrics" "Stats", errorT], permAdmin⟩,
     ⟨"BandwidthForPeer", [named "ctx" ctxT, named "id" peerID],
        [.qualified "metrics" "Stats", errorT], permAdmin⟩,
     ⟨"BandwidthForProtocol", [named "ctx" ctxT, named "proto" (.qualified "protocol" "ID")],
        [.qualified "metrics" "Stats", errorT], permAdmin⟩,
     ⟨"ResourceState", [unnamed ctxT],
        [.qualified "rcmgr" "ResourceManagerStat", errorT], permAdmin⟩,
     ⟨"PubSubPeers", [named "ctx" ctxT, named "topic" stringT],
        [.slice peerID, errorT], permAdmin⟩ ]⟩

/-- Struct `NodeAPI` (api.go:164-169). -/
def NodeAPI : MethodGroup :=
  ⟨"NodeAPI",
   [ ⟨"Info", [unnamed ctxT], [.qualified "node" "Info", errorT], permAdmin⟩,
     ⟨"LogLevelSet", [named "ctx" ctxT, named "name" stringT, named "level" stringT],
        [errorT], permAdmin⟩,
     ⟨"AuthVerify", [named "ctx" ctxT, named "token" stringT],
        [.slice (.qualified "auth" "Permission"), errorT], permAdmin⟩,
     ⟨"AuthNew", [named "ctx" ctxT, named "perms" (.slice (.qualified "auth" "Permission"))],
        [.slice (.builtin "byte"), errorT], permAdmin⟩ ]⟩

/-- The eight method groups, in the order the file declares them. -/
def groups : List MethodGroup :=
  [FraudAPI, DASAPI, BlobAPI, HeaderAPI, StateAPI, ShareAPI, P2PAPI, NodeAPI]

/-- Struct `SubmitOptions` (api.go:172-175): `Fee int64`, `GasLimit uint64`. -/
structure SubmitOptions where
  Fee : Int
  GasLimit : Nat
  deriving DecidableEq, Repr

/-- Function `DefaultSubmitOptions` (api.go:178-183); the Go function takes no
argument and returns a pointer to a fresh struct, modelled as the struct it
points to. -/
def DefaultSubmitOptions (_ : Unit) : SubmitOptions :=
  ⟨-1, 0⟩

/-! ## Observations on a slot -/

/-- The value of a struct tag under a key: the first pair with that key. -/
def tagLookup (key : String) : List (String × String) → Option String
  | [] => none
  | (k, v) :: rest => if k = key then some v else tagLookup key rest

/-- The permission a slot's tag declares under the key `perm`. -/
def Slot.perm (s : Slot) : Option String := tagLookup "perm" s.tag

/-- The number of `perm` entries in a slot's tag. -/
def Slot.permCount (s : Slot) : Nat := (s.tag.filter (fun kv => decide (kv.1 = "perm"))).length

/-- The types of a slot's parameters, in order. -/
def Slot.paramTypes (s : Slot) : List GoType := s.params.map Param.ty

/-- Whether a type is a channel type. -/
def GoType.isChan : GoType → Bool
  | .recvChan _ => true
  | _ => false

/-- Whether some result of a slot is a channel. -/
def Slot.returnsChan (s : Slot) : Bool := s.results.any GoType.isChan

/-- The slot of a group with a given field name, if there is one. -/
def MethodGroup.slot? (g : MethodGroup) (n : String) : Option Slot :=
  g.slots.find? (fun s => decide (s.name = n))

/-- The slots of a group whose tag declares a given permission, by field name. -/
def MethodGroup.slotsWithPerm (g : MethodGroup) (p : String) : List String :=
  (g.slots.filter (fun s => decide (s.perm = some p))).map Slot.name

/-! ## The binding layer's authorization check -/

/-- Modelled from the spec: the permission tiers of section 3, "Permission
tiers form a total order read < write < admin".  The binding layer that uses
them is not part of `api.go`. -/
inductive Tier where
  | read
  | write
  | admin
  deriving DecidableEq, Repr

/-- Modelled from the spec: the position of a tier in the order
read < write < admin. -/
def Tier.rank : Tier → Nat
  | .read => 0
  | .write => 1
  | .admin => 2

/-- Modelled from the spec: the tier a tag value names (section 6, "a
machine-readable tag (read/write/admin)"). -/
def Tier.ofTag? (v : String) : Option Tier :=
  if v = "read" then some .read
  else if v = "write" then some .write
  else if v = "admin" then some .admin
  else none

/-- The tier a slot requires: its `perm` tag read as a tier. -/
def Slot.requiredTier (s : Slot) : Option Tier := s.perm.bind Tier.ofTag?

/-- Modelled from the spec: the failures of section 7 that a call surfaces. -/
inductive Failure where
  | transport
  | remote
  | authorization
  | cancellation
  deriving DecidableEq, Repr

/-- Modelled from the spec: a request on the transport, named by group and slot
(section 6, "method name derived from group + slot name"). -/
structure Request where
  group : String
  slot : String
  deriving DecidableEq, Repr

/-- Modelled from the spec: the binding layer's call path, which `api.go` does
not contain.  Section 4.1: "The binding layer must reject a call whose
configured credential tier is below the slot's required tier, before attempting
network dispatch"; otherwise it "performs a single network round trip and
returns either a populated result value or a failure indicator".  `sent` is the
list of requests the transport has recorded, `node` the remote end's answer. -/
def dispatch {α : Type} (credential required : Tier) (req : Request)
    (node : Request → Except Failure α) (sent : List Request) :
    Except Failure α × List Request :=
  if credential.rank < required.rank then (Except.error Failure.authorization, sent)
  else (node req, sent ++ [req])

/-- Modelled from the spec: a call of slot `s` of group `g` through the binding
layer by a caller holding `credential`.  The result is `none` for a slot whose
tag names no tier, which the spec's data model excludes. -/
def invoke {α : Type} (credential : Tier) (g : MethodGroup) (s : Slot)
    (node : Request → Except Failure α) (sent : List Request) :
    Option (Except Failure α × List Request) :=
  s.requiredTier.map (fun required => dispatch credential required ⟨g.name, s.name⟩ node sent)

/-! ## Shared lemmas -/

/-- A slot whose tag says `admin` requires the tier `admin`. -/
theorem requiredTier_of_perm_admin (s : Slot) (h : s.perm = some "admin") :
    s.requiredTier = some Tier.admin := by
  unfold Slot.requiredTier
  rw [h]
  decide

/-- Every slot of `P2PAPI` and of `NodeAPI` is tagged `admin`. -/
theorem perm_admin_of_p2p_or_node :
    ∀ g ∈ groups, ∀ s ∈ g.slots, g = P2PAPI ∨ g = NodeAPI → s.perm = some "admin" := by
  decide

/-- A caller holding `read` is rejected by the check for the tier `admin`, and
the transport's record is unchanged. -/
theorem dispatch_read_admin {α : Type} (req : Request)
    (node : Request → Except Failure α) (sent : List Request) :
    dispatch Tier.read Tier.admin req node sent = (Except.error Failure.authorization, sent) := by
  simp [dispatch, Tier.rank]

/-! ## Theorems -/

/-- C1: every call of `DefaultSubmitOptions()` returns a `SubmitOptions` whose
`Fee` is -1 and whose `GasLimit` is 0. -/
theorem defaultSubmitOptions_fee_gasLimit (u : Unit) :
    (DefaultSubmitOptions u).Fee = -1 ∧ (DefaultSubmitOptions u).GasLimit = 0 := by
  exact ⟨rfl, rfl⟩

/-- C2: among the slots of the eight method groups, `StateAPI.IsStopped` is the
one and only slot whose result list does not end with `error`; its result is
the bare `bool`, and every other slot's result list ends with `error`. -/
theorem isStopped_only_slot_without_error
    (g : MethodGroup) (hg : g ∈ groups) (s : Slot) (hs : s ∈ g.slots) :
    (s.results.getLast? ≠ some errorT ↔ (g = StateAPI ∧ s.name = "IsStopped")) ∧
    ((g = StateAPI ∧ s.name = "IsStopped") → s.results = [boolT]) ∧
    (¬ (g = StateAPI ∧ s.name = "IsStopped") → s.results.getLast? = some errorT) ∧
    (StateAPI.slot? "IsStopped").map Slot.results = some [boolT] := by
  revert s
  revert g
  decide

/-- Witness of C2 at `StateAPI.IsStopped`. -/
theorem isStopped_only_slot_without_error_witness :
    StateAPI ∈ groups ∧
    (⟨"IsStopped", [named "ctx" ctxT], [boolT], permRead⟩ : Slot) ∈ StateAPI.slots ∧
    ([boolT].getLast? ≠ some errorT ↔ (StateAPI = StateAPI ∧ "IsStopped" = "IsStopped")) :=
  ⟨by decide, by decide,
   (isStopped_only_slot_without_error StateAPI (by decide)
      ⟨"IsStopped", [named "ctx" ctxT], [boolT], permRead⟩ (by decide)).1⟩

/-- C3: for every slot of every method group, the parameter list is non-empty
and its first parameter has type `context.Context`. -/
theorem first_param_is_context
    (g : MethodGroup) (hg : g ∈ groups) (s : Slot) (hs : s ∈ g.slots) :
    s.params ≠ [] ∧ s.paramTypes.head? = some ctxT := by
  revert s
  revert g
  decide

/-- Witness of C3 at `BlobAPI.Submit`. -/
theorem first_param_is_context_witness :
    BlobAPI ∈ groups ∧
    (BlobAPI.slot? "Submit").map Slot.paramTypes
      = some [ctxT, .slice (.pointer (.qualified "blob" "Blob")),
              .pointer (.declared "SubmitOptions")] ∧
    ∀ s ∈ BlobAPI.slots, s.params ≠ [] ∧ s.paramTypes.head? = some ctxT :=
  ⟨by decide, by decide, fun s hs => first_param_is_context BlobAPI (by decide) s hs⟩

/-- C4: in every method group no two slots have the same name, and every slot
carries exactly one permission tier, which is `read`, `write` or `admin`. -/
theorem slot_names_unique_and_one_perm (g : MethodGroup) (hg : g ∈ groups) :
    (g.slots.map Slot.name).Nodup ∧
    ∀ s ∈ g.slots, s.permCount = 1 ∧
      (s.perm = some "read" ∨ s.perm = some "write" ∨ s.perm = some "admin") := by
  revert g
  decide

/-- Witness of C4 at `StateAPI`. -/
theorem slot_names_unique_and_one_perm_witness :
    StateAPI ∈ groups ∧
    ((StateAPI.slots.map Slot.name).Nodup ∧
     ∀ s ∈ StateAPI.slots, s.permCount = 1 ∧
       (s.perm = some "read" ∨ s.perm = some "write" ∨ s.perm = some "admin")) :=
  ⟨by decide, slot_names_unique_and_one_perm StateAPI (by decide)⟩

/-- C5: a slot is tagged `admin` if and only if it belongs to `P2PAPI` or
`NodeAPI`; `P2PAPI` has 17 slots and `NodeAPI` has 4, all of them `admin`, and
no slot of the other six groups is `admin`. -/
theorem admin_iff_p2p_or_node
    (g : MethodGroup) (hg : g ∈ groups) (s : Slot) (hs : s ∈ g.slots) :
    (s.perm = some "admin" ↔ (g = P2PAPI ∨ g = NodeAPI)) ∧
    (g ∈ [FraudAPI, DASAPI, BlobAPI, HeaderAPI, StateAPI, ShareAPI] → s.perm ≠ some "admin") ∧
    (P2PAPI.slotsWithPerm "admin").length = 17 ∧ P2PAPI.slots.length = 17 ∧
    (NodeAPI.slotsWithPerm "admin").length = 4 ∧ NodeAPI.slots.length = 4 := by
  revert s
  revert g
  decide

/-- Witness of C5 at `NodeAPI.AuthNew`. -/
theorem admin_iff_p2p_or_node_witness :
    NodeAPI ∈ groups ∧
    (⟨"AuthNew", [named "ctx" ctxT, named "perms" (.slice (.qualified "auth" "Permission"))],
        [.slice (.builtin "byte"), errorT], permAdmin⟩ : Slot) ∈ NodeAPI.slots ∧
    (tagLookup "perm" permAdmin = some "admin" ↔ (NodeAPI = P2PAPI ∨ NodeAPI = NodeAPI)) :=
  ⟨by decide, by decide,
   (admin_iff_p2p_or_node NodeAPI (by decide)
      ⟨"AuthNew", [named "ctx" ctxT, named "perms" (.slice (.qualified "auth" "Permission"))],
        [.slice (.builtin "byte"), errorT], permAdmin⟩ (by decide)).1⟩

/-- C6: the slots tagged `write` are exactly `BlobAPI.Submit` and
`StateAPI.Transfer`, `SubmitTx`, `SubmitPayForBlob`, `CancelUnbondingDelegation`,
`BeginRedelegate`, `Undelegate` and `Delegate`; every other slot of `FraudAPI`,
`DASAPI`, `BlobAPI`, `HeaderAPI`, `StateAPI` and `ShareAPI` is tagged `read`. -/
theorem write_slots_exactly
    (g : MethodGroup) (hg : g ∈ groups) (s : Slot) (hs : s ∈ g.slots) :
    (s.perm = some "write" ↔
      ((g = BlobAPI ∧ s.name = "Submit") ∨
       (g = StateAPI ∧ s.name ∈ ["Transfer", "SubmitTx", "SubmitPayForBlob",
          "CancelUnbondingDelegation", "BeginRedelegate", "Undelegate", "Delegate"]))) ∧
    (g ∈ [FraudAPI, DASAPI, BlobAPI, HeaderAPI, StateAPI, ShareAPI] →
      s.perm ≠ some "write" → s.perm = some "read") ∧
    BlobAPI.slotsWithPerm "write" = ["Submit"] ∧
    StateAPI.slotsWithPerm "write" = ["Transfer", "SubmitTx", "SubmitPayForBlob",
      "CancelUnbondingDelegation", "BeginRedelegate", "Undelegate", "Delegate"] := by
  revert s
  revert g
  decide

/-- Witness of C6 at `StateAPI.SubmitTx`. -/
theorem write_slots_exactly_witness :
    StateAPI ∈ groups ∧
    (⟨"SubmitTx", [named "ctx" ctxT, named "tx" (.qualified "state" "Tx")],
        [txResponseP, errorT], permWrite⟩ : Slot) ∈ StateAPI.slots ∧
    (tagLookup "perm" permWrite = some "write" ↔
      ((StateAPI = BlobAPI ∧ "SubmitTx" = "Submit") ∨
       (StateAPI = StateAPI ∧ "SubmitTx" ∈ ["Transfer", "SubmitTx", "SubmitPayForBlob",
          "CancelUnbondingDelegation", "BeginRedelegate", "Undelegate", "Delegate"]))) :=
  ⟨by decide, by decide,
   (write_slots_exactly StateAPI (by decide)
      ⟨"SubmitTx", [named "ctx" ctxT, named "tx" (.qualified "state" "Tx")],
        [txResponseP, errorT], permWrite⟩ (by decide)).1⟩

/-- C7: `FraudAPI.Subscribe` returns `(<-chan *Proof, error)` and
`HeaderAPI.Subscribe` returns `(<-chan *header.ExtendedHeader, error)`, and
these two are the only slots of the file with a channel among their results. -/
theorem subscribe_slots_return_channels
    (g : MethodGroup) (hg : g ∈ groups) (s : Slot) (hs : s ∈ g.slots) :
    (s.returnsChan = true ↔ ((g = FraudAPI ∨ g = HeaderAPI) ∧ s.name = "Subscribe")) ∧
    (FraudAPI.slot? "Subscribe").map Slot.results
      = some [.recvChan (.pointer (.declared "Proof")), .builtin "error"] ∧
    (HeaderAPI.slot? "Subscribe").map Slot.results
      = some [.recvChan (.pointer (.qualified "header" "ExtendedHeader")), .builtin "error"] := by
  revert s
  revert g
  decide

/-- Witness of C7 at `HeaderAPI.Subscribe`. -/
theorem subscribe_slots_return_channels_witness :
    HeaderAPI ∈ groups ∧
    (⟨"Subscribe", [named "ctx" ctxT], [.recvChan extHeaderP, errorT], permRead⟩ : Slot)
      ∈ HeaderAPI.slots ∧
    ([GoType.recvChan extHeaderP, errorT].any GoType.isChan = true ↔
      ((HeaderAPI = FraudAPI ∨ HeaderAPI = HeaderAPI) ∧ "Subscribe" = "Subscribe")) :=
  ⟨by decide, by decide,
   (subscribe_slots_return_channels HeaderAPI (by decide)
      ⟨"Subscribe", [named "ctx" ctxT], [.recvChan extHeaderP, errorT], permRead⟩
      (by decide)).1⟩

/-- C8: `DASAPI.WaitCatchUp` and `HeaderAPI.SyncWait` take only the context
and return only an `error`. -/
theorem waitCatchUp_syncWait_signature :
    (DASAPI.slot? "WaitCatchUp").map (fun s => (s.paramTypes, s.results))
      = some ([.qualified "context" "Context"], [.builtin "error"]) ∧
    (HeaderAPI.slot? "SyncWait").map (fun s => (s.paramTypes, s.results))
      = some ([.qualified "context" "Context"], [.builtin "error"]) := by
  decide

/-- C9: `BlobAPI.Included` returns `(bool, error)`, the boolean and the failure
indicator being separate results; `ShareAPI.SharesAvailable` returns only
`error`. -/
theorem included_sharesAvailable_results :
    (BlobAPI.slot? "Included").map Slot.results = some [.builtin "bool", .builtin "error"] ∧
    (ShareAPI.slot? "SharesAvailable").map Slot.results = some [.builtin "error"] := by
  decide

/-- C10: with the tiers ordered read < write < admin, a call of a slot tagged
`admin` (every slot of `P2PAPI` and of `NodeAPI`) by a caller holding only
`read` yields an authorization failure, and the transport's record of requests
is what it was before the call. -/
theorem admin_slot_rejects_read_caller {α : Type}
    (g : MethodGroup) (hg : g ∈ groups) (s : Slot) (hs : s ∈ g.slots)
    (hadmin : s.perm = some "admin" ∨ g = P2PAPI ∨ g = NodeAPI)
    (node : Request → Except Failure α) (sent : List Request) :
    (Tier.read.rank < Tier.write.rank ∧ Tier.write.rank < Tier.admin.rank) ∧
    invoke Tier.read g s node sent = some (Except.error Failure.authorization, sent) := by
  have hperm : s.perm = some "admin" := by
    rcases hadmin with h | h
    · exact h
    · exact perm_admin_of_p2p_or_node g hg s hs h
  refine ⟨by decide, ?_⟩
  unfold invoke
  rw [requiredTier_of_perm_admin s hperm, Option.map_some', dispatch_read_admin]

/-- Witness of C10 at `P2PAPI.Peers`, on a transport that has recorded nothing
and a node that would answer. -/
theorem admin_slot_rejects_read_caller_witness :
    P2PAPI ∈ groups ∧
    (⟨"Peers", [unnamed ctxT], [.slice peerID, errorT], permAdmin⟩ : Slot) ∈ P2PAPI.slots ∧
    invoke Tier.read P2PAPI ⟨"Peers", [unnamed ctxT], [.slice peerID, errorT], permAdmin⟩
        (fun _ => (Except.ok 0 : Except Failure Nat)) []
      = some (Except.error Failure.authorization, []) :=
  ⟨by decide, by decide,
   (admin_slot_rejects_read_caller P2PAPI (by decide)
      ⟨"Peers", [unnamed ctxT], [.slice peerID, errorT], permAdmin⟩ (by decide)
      (Or.inr (Or.inl rfl)) (fun _ => Except.ok 0) []).2⟩

end CelestiaOpenRPC
